import Mathlib

/-!
Verification of the multi-source plant data-access layer of the PlantApp
repository (src/script.js) against its specification.

The JavaScript data layer is shallowly embedded: each JS function that the
claims reference is translated into a Lean function over explicit inputs.
Dynamic JS values are given precise types:
  * a field that may hold a string, an array of strings, or be absent is
    modelled by `JsStrField`;
  * optional scalar fields are `Option`;
  * JS truthiness (`x || d` with `""`, `0`, `false`, `undefined` falsy) is
    modelled by the `js...Or` helpers;
  * `localStorage` is modelled as two partial maps (payload entries and the
    paired `<key>_time` entries);
  * `fetch` is modelled by an oracle giving each attempt's outcome
    (`JsFetch`), and a function that throws is modelled with `Option` /
    `Except`.
Timestamps are `Int` (JS epoch-milliseconds).
-/

/-- Model of a JS value that may be a string, an array of strings, or
absent (`undefined`/`null`). -/
inductive JsStrField where
  | absent : JsStrField
  | str : String → JsStrField
  | arr : List String → JsStrField
deriving DecidableEq, Repr

/-- JS `a || b` for an optional string `a` with string default `b`:
`undefined`, `null` and `""` are falsy. -/
def jsStrOr (a : Option String) (b : String) : String :=
  match a with
  | some s => if s = "" then b else s
  | none => b

/-- JS `a || b` where both operands are string-or-null values. -/
def jsOptOr (a b : Option String) : Option String :=
  match a with
  | some s => if s = "" then b else some s
  | none => b

/-- JS `a || null`: an empty string degrades to `null`. -/
def jsOrNull (a : Option String) : Option String :=
  match a with
  | some s => if s = "" then none else some s
  | none => none

/-- JS `a || false` for an optional boolean. -/
def jsBoolOr (a : Option Bool) : Bool :=
  match a with
  | some b => b
  | none => false

/-- JS `a || 0` for an optional number (`0` is falsy, so the result agrees
with the stored value in every case). -/
def jsNumOr (a : Option Int) : Int :=
  match a with
  | some n => n
  | none => 0

/-- Characters matched by the JS regex `\s` (ASCII subset). -/
def jsWhitespace (c : Char) : Bool :=
  c = ' ' || c = '\t' || c = '\n' || c = '\r' || c = Char.ofNat 11 || c = Char.ofNat 12

/-- JS `name.replace(/\s+/g, "_")`: each maximal run of whitespace becomes
one underscore. -/
def collapseWsToUnderscore (s : String) : String :=
  String.mk (go s.data false)
where
  go : List Char → Bool → List Char
    | [], _ => []
    | c :: cs, inRun =>
      if jsWhitespace c then
        if inRun then go cs true else '_' :: go cs true
      else
        c :: go cs false

/-- JS `String.prototype.toLowerCase` (ASCII model). -/
def jsToLowerCase (s : String) : String :=
  String.mk (s.data.map Char.toLower)

/-- JS `String.prototype.trim`: strip whitespace from both ends. -/
def jsTrim (s : String) : String :=
  String.mk (((s.data.dropWhile (fun c => jsWhitespace c)).reverse.dropWhile
    (fun c => jsWhitespace c)).reverse)

/-- JS `s.startsWith(p)`. -/
def jsStartsWith (s p : String) : Bool :=
  List.isPrefixOf p.data s.data

/-- JS `s.includes(sub)`: `sub` occurs contiguously in `s` (an empty
needle always matches). -/
def jsIncludes (s sub : String) : Bool :=
  go s.data sub.data
where
  go : List Char → List Char → Bool
    | hay, needle =>
      if List.isPrefixOf needle hay then true
      else
        match hay with
        | [] => false
        | _ :: t => go t needle

/-- Upper-case hexadecimal digit, as produced by `encodeURIComponent`. -/
def hexDigit (n : Nat) : String :=
  (("0123456789ABCDEF".toList).getD n '0').toString

/-- UTF-8 byte sequence of a character (values in `0..255`). -/
def utf8Bytes (c : Char) : List Nat :=
  let n := c.toNat
  if n < 0x80 then [n]
  else if n < 0x800 then [0xC0 + n / 0x40, 0x80 + n % 0x40]
  else if n < 0x10000 then
    [0xE0 + n / 0x1000, 0x80 + (n / 0x40) % 0x40, 0x80 + n % 0x40]
  else
    [0xF0 + n / 0x40000, 0x80 + (n / 0x1000) % 0x40, 0x80 + (n / 0x40) % 0x40,
      0x80 + n % 0x40]

/-- Characters `encodeURIComponent` leaves unescaped: ASCII alphanumerics
and `- _ . ! ~ * ( )` together with the apostrophe (code 39). -/
def isUnreservedURIChar (c : Char) : Bool :=
  c.isAlphanum || "-_.!~*()".data.contains c || c.toNat = 39

/-- JS `encodeURIComponent`: unreserved characters pass through, every
other character is percent-encoded byte by byte (UTF-8, upper-case hex). -/
def encodeURIComponent (s : String) : String :=
  String.join (s.data.map fun c =>
    if isUnreservedURIChar c then c.toString
    else String.join ((utf8Bytes c).map fun b =>
      "%" ++ hexDigit (b / 16) ++ hexDigit (b % 16)))

/-- Local fallback image path (script.js line 25). -/
def PLACEHOLDER_IMG : String := "MushroomApp.png"

/-- Embedding of `getWikipediaUrl` (script.js lines 346-351): `null` for a
falsy name, otherwise the Wikipedia URL of the slug obtained by collapsing
whitespace to underscores and URI-encoding. -/
def getWikipediaUrl (name : Option String) : Option String :=
  match name with
  | none => none
  | some s =>
    if s = "" then none
    else some ("https://en.wikipedia.org/wiki/"
      ++ encodeURIComponent (collapseWsToUnderscore s))

/-- Raw `default_image` object of the Perenual details response. -/
structure DefaultImage where
  regular_url : Option String
  original_url : Option String
deriving DecidableEq, Repr

/-- Raw `{value, unit}` benchmark object of the Perenual details response. -/
structure RawBenchmark where
  value : Option String
  unit : Option String
deriving DecidableEq, Repr

/-- Raw `hardiness` object of the Perenual details response. -/
structure RawHardiness where
  min : Option String
  max : Option String
deriving DecidableEq, Repr

/-- Raw `hardiness_location` object of the Perenual details response. -/
structure RawHardinessLoc where
  full_url : Option String
  full_iframe : Option String
deriving DecidableEq, Repr

/-- Raw Perenual species record, with exactly the fields that
`formatPlantData` (script.js lines 164-238) reads. -/
structure PerenualRaw where
  id : Option Int
  common_name : Option String
  scientific_name : JsStrField
  description : Option String
  default_image : Option DefaultImage
  cycle : Option String
  watering : Option String
  sunlight : JsStrField
  watering_period : Option String
  watering_general_benchmark : Option RawBenchmark
  depth_water_requirement : Option RawBenchmark
  volume_water_requirement : Option RawBenchmark
  dimension : Option String
  type : Option String
  growth_rate : Option String
  maintenance : Option String
  care_level : Option String
  flowers : Option Bool
  flowering_season : Option String
  flower_color : Option String
  edible_fruit : Option Bool
  edible_leaf : Option Bool
  poisonous_to_humans : Option Int
  poisonous_to_pets : Option Int
  medicinal : Option Bool
  invasive : Option Bool
  tropical : Option Bool
  indoor : Option Bool
  cuisine : Option Bool
  hardiness : Option RawHardiness
  hardiness_location : Option RawHardinessLoc
  soil : JsStrField
  propagation : JsStrField
  attracts : JsStrField
  origin : JsStrField
  other_name : JsStrField
deriving DecidableEq, Repr

/-- Formatted `{value, unit}` pair produced by `formatPlantData`. -/
structure Benchmark where
  value : String
  unit : String
deriving DecidableEq, Repr

/-- Formatted hardiness range produced by `formatPlantData`. -/
structure Hardiness where
  min : String
  max : String
deriving DecidableEq, Repr

/-- Formatted hardiness-location pair produced by `formatPlantData`
(`|| null` keeps these two fields nullable). -/
structure HardinessLoc where
  full_url : Option String
  full_iframe : Option String
deriving DecidableEq, Repr

/-- Canonical plant record produced by `formatPlantData`.  `id` passes the
raw id through unchanged and `scientific_name` keeps the JS value shape
(the empty-array edge of `data.scientific_name?.join?.(", ") ||
data.scientific_name` yields the array itself). -/
structure Plant where
  id : Option Int
  source : String
  common_name : String
  scientific_name : JsStrField
  description : String
  image_url : String
  wikipedia_url : Option String
  cycle : String
  watering : String
  sunlight : String
  watering_period : String
  watering_general_benchmark : Benchmark
  depth_water_requirement : Benchmark
  volume_water_requirement : Benchmark
  dimension : String
  type : String
  growth_rate : String
  maintenance : String
  care_level : String
  flowers : Bool
  flowering_season : String
  flower_color : String
  edible_fruit : Bool
  edible_leaf : Bool
  poisonous_to_humans : Int
  poisonous_to_pets : Int
  medicinal : Bool
  invasive : Bool
  tropical : Bool
  indoor : Bool
  cuisine : Bool
  hardiness : Hardiness
  hardiness_location : HardinessLoc
  soil : String
  propagation : String
  attracts : String
  origin : String
  other_name : String
deriving DecidableEq, Repr

/-- JS `Array.isArray(x) ? x.join(sep) : (x || d)`: arrays are joined
unconditionally, strings fall back to the default only when empty. -/
def jsArrJoinOr (f : JsStrField) (sep : String) (d : String) : String :=
  match f with
  | .arr xs => String.intercalate sep xs
  | .str s => if s = "" then d else s
  | .absent => d

/-- JS `data.scientific_name?.join?.(", ") || data.scientific_name ||
"N/A"`: an array joins (an empty join falls back to the raw array value,
which is truthy); a string has no `join`, so the string itself is used
unless empty; an absent value becomes `"N/A"`. -/
def formatScientificName (f : JsStrField) : JsStrField :=
  match f with
  | .absent => .str "N/A"
  | .str s => if s = "" then .str "N/A" else .str s
  | .arr xs =>
    let j := String.intercalate ", " xs
    if j = "" then .arr xs else .str j

/-- JS `getWikipediaUrl` applied to a JS value that may be an array: the
array branch is unreachable in `formatPlantData` (the common-name operand
of `||` is never falsy there) and is mapped to `null`. -/
def getWikipediaUrlJs (v : JsStrField) : Option String :=
  match v with
  | .str s => getWikipediaUrl (some s)
  | .absent => none
  | .arr _ => none

/-- Embedding of `formatPlantData` (script.js lines 164-238). -/
def formatPlantData (data : PerenualRaw) : Plant :=
  let commonName := jsStrOr data.common_name "Unknown Plant"
  let scientificName := formatScientificName data.scientific_name
  let wikipediaUrl :=
    jsOptOr (getWikipediaUrl (some commonName)) (getWikipediaUrlJs scientificName)
  { id := data.id
    source := "perenual"
    common_name := commonName
    scientific_name := scientificName
    description := jsStrOr data.description "No description available."
    image_url := jsStrOr (data.default_image.bind DefaultImage.regular_url)
      (jsStrOr (data.default_image.bind DefaultImage.original_url) PLACEHOLDER_IMG)
    wikipedia_url := wikipediaUrl
    cycle := jsStrOr data.cycle "N/A"
    watering := jsStrOr data.watering "N/A"
    sunlight := jsArrJoinOr data.sunlight ", " "N/A"
    watering_period := jsStrOr data.watering_period "N/A"
    watering_general_benchmark :=
      { value := jsStrOr (data.watering_general_benchmark.bind RawBenchmark.value) "N/A"
        unit := jsStrOr (data.watering_general_benchmark.bind RawBenchmark.unit) "" }
    depth_water_requirement :=
      { value := jsStrOr (data.depth_water_requirement.bind RawBenchmark.value) "N/A"
        unit := jsStrOr (data.depth_water_requirement.bind RawBenchmark.unit) "" }
    volume_water_requirement :=
      { value := jsStrOr (data.volume_water_requirement.bind RawBenchmark.value) "N/A"
        unit := jsStrOr (data.volume_water_requirement.bind RawBenchmark.unit) "" }
    dimension := jsStrOr data.dimension "N/A"
    type := jsStrOr data.type "N/A"
    growth_rate := jsStrOr data.growth_rate "N/A"
    maintenance := jsStrOr data.maintenance "N/A"
    care_level := jsStrOr data.care_level "N/A"
    flowers := jsBoolOr data.flowers
    flowering_season := jsStrOr data.flowering_season "N/A"
    flower_color := jsStrOr data.flower_color "N/A"
    edible_fruit := jsBoolOr data.edible_fruit
    edible_leaf := jsBoolOr data.edible_leaf
    poisonous_to_humans := jsNumOr data.poisonous_to_humans
    poisonous_to_pets := jsNumOr data.poisonous_to_pets
    medicinal := jsBoolOr data.medicinal
    invasive := jsBoolOr data.invasive
    tropical := jsBoolOr data.tropical
    indoor := jsBoolOr data.indoor
    cuisine := jsBoolOr data.cuisine
    hardiness :=
      { min := jsStrOr (data.hardiness.bind RawHardiness.min) "N/A"
        max := jsStrOr (data.hardiness.bind RawHardiness.max) "N/A" }
    hardiness_location :=
      { full_url := jsOrNull (data.hardiness_location.bind RawHardinessLoc.full_url)
        full_iframe := jsOrNull (data.hardiness_location.bind RawHardinessLoc.full_iframe) }
    soil := jsArrJoinOr data.soil ", " "N/A"
    propagation := jsArrJoinOr data.propagation ", " "N/A"
    attracts := jsArrJoinOr data.attracts ", " "N/A"
    origin := jsArrJoinOr data.origin ", " "N/A"
    other_name :=
      match data.other_name with
      | .arr xs => String.intercalate ", " (xs.take 3)
      | .str s => if s = "" then "N/A" else s
      | .absent => "N/A" }

/-- Typed failures thrown by the data layer; each constructor corresponds
to one `throw new Error(...)` site in script.js. -/
inductive FetchError where
  | rateLimited : FetchError
  | requestFailed : Int → FetchError
  | listRequestFailed : Int → FetchError
  | invalidData : FetchError
  | nonPerenualNoCache : String → FetchError
  | netError : FetchError
  | rateLimitNoCache : FetchError
deriving DecidableEq, Repr

/-- Message string of each thrown error, copied from script.js, with the
browser-dependent message of a network-level `fetch` rejection modelled by
`"Failed to fetch"`. -/
def errorMessage : FetchError → String
  | .rateLimited =>
    "🚫 API rate limit exceeded. The free tier allows limited requests per day. Please wait a few minutes and try again, or consider upgrading your API plan at https://perenual.com"
  | .requestFailed s => "Plant details failed: " ++ toString s
  | .listRequestFailed s => "Plant list request failed: " ++ toString s
  | .invalidData => "Invalid plant data: missing ID"
  | .nonPerenualNoCache id =>
    "Cannot fetch details for non-Perenual plant " ++ id
      ++ ". Please use cached data or loadPlantDetails with source parameter."
  | .netError => "Failed to fetch"
  | .rateLimitNoCache =>
    "🚫 API rate limit exceeded and no cached plants available. Please wait a few minutes and try again, or try the 🍄 Random Mushroom button (uses different APIs)."

/-- Outcome of one `fetch` + `response.json()` round trip: a parsed 2xx
body, a non-2xx status, or a network-level exception. -/
inductive JsFetch (α : Type) where
  | ok : α → JsFetch α
  | httpErr : Int → JsFetch α
  | netErr : JsFetch α
deriving DecidableEq, Repr

/-- A plant id as passed to `getPlantDetails`: a Perenual numeric id or a
string id from another source. -/
inductive PlantId where
  | num : Int → PlantId
  | str : String → PlantId
deriving DecidableEq, Repr

/-- String interpolation of a plant id, as in the template literal
`` `plant_${plantId}` ``. -/
def PlantId.render : PlantId → String
  | .num n => toString n
  | .str s => s

/-- The `localStorage` entries the data layer uses: `plant k` is the
payload stored under key `k` (already JSON-parsed) and `time k` is the
integer stored under key `k ++ "_time"` (already `parseInt`-ed). -/
structure LS where
  plant : String → Option Plant
  time : String → Option Int

/-- Empty `localStorage`. -/
def emptyLS : LS := ⟨fun _ => none, fun _ => none⟩

/-- Prefix test of `getPlantDetails` (script.js lines 64-70): a string id
starting with a non-Perenual source tag. -/
def isNonPerenual : PlantId → Bool
  | .num _ => false
  | .str s =>
    jsStartsWith s "inat_" || jsStartsWith s "toxic_" || jsStartsWith s "gbif_"
      || jsStartsWith s "trefle_"

/-- Cache key of a plant id, the template literal `` `plant_${plantId}` ``
(script.js line 73). -/
def cacheKey (id : PlantId) : String := "plant_" ++ id.render

/-- The cache TTL used by the details cache: 24 hours in milliseconds. -/
def CACHE_TTL_MS : Int := 86400000

/-- Embedding of the cache read of `getPlantDetails` (script.js lines
72-86): the payload is returned exactly when both the payload entry and
its `_time` entry are present and `now - cacheTime < 86400000`. -/
def cacheLookup (ls : LS) (key : String) (now : Int) : Option Plant :=
  match ls.plant key, ls.time (key ++ "_time") with
  | some p, some t => if now - t < 86400000 then some p else none
  | _, _ => none

/-- JS falsiness of the raw `id` field (`!data.id`): absent or zero. -/
def perenualIdFalsy : Option Int → Bool
  | none => true
  | some n => n = 0

/-- Embedding of the retry loop of `getPlantDetails` (script.js lines
101-158).  `attempt` is the current 1-based attempt number and `fuel` the
number of remaining iterations (`retries - attempt + 1`); `fetch n` is the
outcome of the n-th attempt's network call.  Each iteration performs
exactly one fetch; the second component counts them.  A 429 status throws
the rate-limit error unconditionally, but the `catch` block retries it
like any other error unless this was the last attempt; when the loop falls
through (`retries = 0`) the JS function returns `undefined`, modelled by
`.ok none`. -/
def gpdLoop (fetch : Nat → JsFetch PerenualRaw) (attempt : Nat) :
    Nat → Except FetchError (Option Plant) × Nat
  | 0 => (.ok none, 0)
  | fuel + 1 =>
    match fetch attempt with
    | .ok data =>
      if perenualIdFalsy data.id then
        if fuel = 0 then (.error .invalidData, 1)
        else
          let r := gpdLoop fetch (attempt + 1) fuel
          (r.1, r.2 + 1)
      else (.ok (some (formatPlantData data)), 1)
    | .httpErr s =>
      let e := if s = 429 then FetchError.rateLimited else FetchError.requestFailed s
      if fuel = 0 then (.error e, 1)
      else
        let r := gpdLoop fetch (attempt + 1) fuel
        (r.1, r.2 + 1)
    | .netErr =>
      if fuel = 0 then (.error .netError, 1)
      else
        let r := gpdLoop fetch (attempt + 1) fuel
        (r.1, r.2 + 1)

/-- Embedding of `getPlantDetails` (script.js lines 61-159).  Inputs: the
plant id, the `retries` bound, the `localStorage` state, the in-memory
`plantCache` (`mem`), the current time, and the per-attempt fetch oracle.
Output: the returned value or thrown error, paired with the number of
network calls issued. -/
def getPlantDetails (id : PlantId) (retries : Nat) (ls : LS)
    (mem : String → Option Plant) (now : Int)
    (fetch : Nat → JsFetch PerenualRaw) :
    Except FetchError (Option Plant) × Nat :=
  match cacheLookup ls (cacheKey id) now with
  | some p => (.ok (some p), 0)
  | none =>
    if isNonPerenual id then
      match mem id.render with
      | some p => (.ok (some p), 0)
      | none => (.error (.nonPerenualNoCache id.render), 0)
    else gpdLoop fetch 1 retries

/-- Curated Perenual ids used by `getRandomPlant` (script.js lines
253-261). -/
def CURATED_PLANT_IDS : List Int :=
  [1, 2, 3, 4, 5, 6, 7, 8, 9, 10,
   50, 100, 150, 200, 250, 300, 350, 400,
   500, 600, 700, 800, 900, 1000,
   1100, 1200, 1300, 1400, 1500, 1600,
   2000, 2500, 3000, 3500, 4000, 4500,
   5000, 5500, 6000, 6500, 7000, 7500,
   8000, 8500, 9000, 9500, 10000]

/-- Freshness test of the cached-id scan in `getRandomPlant` (script.js
lines 270-281): both entries present and less than 24 hours old. -/
def freshCached (ls : LS) (now : Int) (id : Int) : Bool :=
  match ls.plant ("plant_" ++ toString id),
      ls.time ("plant_" ++ toString id ++ "_time") with
  | some _, some t => now - t < 86400000
  | _, _ => false

/-- The id `getRandomPlant` selects (script.js lines 283-291): a fresh
cached curated id when one exists, otherwise any curated id.  The two
`Math.floor(Math.random() * len)` draws are modelled by the index oracles
`r1` and `r2` taken modulo the list length. -/
def chosenRandomId (ls : LS) (now : Int) (r1 r2 : Nat) : Int :=
  let cachedIds := CURATED_PLANT_IDS.filter (freshCached ls now)
  if cachedIds.length > 0 then cachedIds.getD (r1 % cachedIds.length) 0
  else CURATED_PLANT_IDS.getD (r2 % CURATED_PLANT_IDS.length) 0

/-- Embedding of `getRandomPlant` (script.js lines 266-322): try
`getPlantDetails` on the chosen id with one retry; if that throws an error
whose message includes `"rate limit"`, fall back to the first curated id
that has *any* `localStorage` payload entry, ignoring the TTL and the
`_time` entry entirely; rethrow every other error. -/
def getRandomPlant (ls : LS) (mem : String → Option Plant) (now : Int)
    (r1 r2 : Nat) (fetch : Nat → JsFetch PerenualRaw) :
    Except FetchError (Option Plant) :=
  let randomId := chosenRandomId ls now r1 r2
  match getPlantDetails (.num randomId) 1 ls mem now fetch with
  | (.ok p, _) => .ok p
  | (.error e, _) =>
    if jsIncludes (errorMessage e) "rate limit" then
      match CURATED_PLANT_IDS.findSome? (fun id => ls.plant ("plant_" ++ toString id)) with
      | some plantData => .ok (some plantData)
      | none => .error .rateLimitNoCache
    else .error e

/-- The fixed inter-call cooldown (script.js line 787). -/
def API_COOLDOWN_MS : Int := 2000

/-- Wait inserted before a `getPlantDetails` fetch (script.js lines
103-110): if less than the cooldown has elapsed since `lastApiCallTime`,
sleep for the remainder, otherwise proceed at once. -/
def gpdWaitTime (now lastApiCallTime : Int) : Int :=
  if now - lastApiCallTime < API_COOLDOWN_MS then
    API_COOLDOWN_MS - (now - lastApiCallTime)
  else 0

/-- Time at which the `getPlantDetails` fetch is issued: the current time
plus the inserted wait.  Line 111 then stores this instant back into
`lastApiCallTime`. -/
def gpdFetchIssueTime (now lastApiCallTime : Int) : Int :=
  now + gpdWaitTime now lastApiCallTime

/-- Filters accepted by `getPlantList` (script.js lines 34-47). -/
structure PlantFilters where
  search : Option String
  edible : Option Bool
  poisonous : Option Bool
  indoor : Option Bool
  cycle : Option String
  watering : Option String
  sunlight : Option String
  hardiness : Option String
deriving DecidableEq, Repr

/-- Body of a Perenual species-list response. -/
structure PerenualListResp where
  data : Option (List PerenualRaw)
  total : Option Int
deriving DecidableEq, Repr

/-- Embedding of `getPlantList` (script.js lines 34-56): one fetch; a 429
status throws the rate-limit error, any other non-2xx throws
`listRequestFailed`, a 2xx returns the parsed body. -/
def getPlantList (res : JsFetch PerenualListResp) :
    Except FetchError PerenualListResp :=
  match res with
  | .ok d => .ok d
  | .httpErr s =>
    if s = 429 then .error .rateLimited else .error (.listRequestFailed s)
  | .netErr => .error .netError

/-- Instant at which the single fetch of `getPlantList` is issued: the
function body (script.js lines 34-56) contains no cooldown logic and never
reads `lastApiCallTime`, so the call goes out at the invocation time. -/
def getPlantListIssueTime (now lastApiCallTime : Int) : Int := now

/-- Value of `lastApiCallTime` after a `getPlantList` call: the function
never writes it, so it is unchanged. -/
def getPlantListNewLast (now lastApiCallTime : Int) : Int := lastApiCallTime

/-- Raw photo object of an iNaturalist taxon. -/
structure INatPhoto where
  medium_url : Option String
  original_url : Option String
  large_url : Option String
  small_url : Option String
  url : Option String
deriving DecidableEq, Repr

/-- Entry of `taxon.taxon_photos`; the nested `photo` object is required
(the code dereferences it unconditionally). -/
structure INatTaxonPhoto where
  photo : INatPhoto
deriving DecidableEq, Repr

/-- Ancestor taxon as read by `formatINaturalistData`. -/
structure INatAncestor where
  rank : Option String
  name : Option String
deriving DecidableEq, Repr

/-- Raw iNaturalist taxon, with exactly the fields `formatINaturalistData`
(script.js lines 434-507) reads. -/
structure INatTaxon where
  id : Int
  name : Option String
  preferred_common_name : Option String
  rank : Option String
  iconic_taxon_name : Option String
  observations_count : Option Int
  wikipedia_url : Option String
  wikipedia_summary : Option String
  observations : Option String
  is_active : Option Bool
  endemic : Option Bool
  threatened : Option Bool
  introduced : Option Bool
  native : Option Bool
  ancestry : Option String
  ancestors : Option (List INatAncestor)
  default_photo : Option INatPhoto
  taxon_photos : Option (List INatTaxonPhoto)
deriving DecidableEq, Repr

/-- The six mutable taxonomy variables of `formatINaturalistData` (script.js
line 451); each starts as `"N/A"` and an assignment from an ancestor with
an absent `name` can set one to `undefined`, hence `Option String`. -/
structure TaxRanks where
  kingdom : Option String
  phylum : Option String
  class_rank : Option String
  order : Option String
  family : Option String
  genus : Option String
deriving DecidableEq, Repr

/-- One iteration of the `taxon.ancestors.forEach` chain (script.js lines
461-468). -/
def applyAncestor (acc : TaxRanks) (a : INatAncestor) : TaxRanks :=
  if a.rank = some "kingdom" then { acc with kingdom := a.name }
  else if a.rank = some "phylum" then { acc with phylum := a.name }
  else if a.rank = some "class" then { acc with class_rank := a.name }
  else if a.rank = some "order" then { acc with order := a.name }
  else if a.rank = some "family" then { acc with family := a.name }
  else if a.rank = some "genus" then { acc with genus := a.name }
  else acc

/-- Record produced by `formatINaturalistData`. -/
structure INatPlant where
  id : String
  source : String
  common_name : Option String
  scientific_name : Option String
  description : Option String
  image_url : String
  rank : String
  iconic_taxon_name : String
  observations_count : Int
  wikipedia_url : Option String
  is_active : Bool
  endemic : Bool
  threatened : Bool
  introduced : Bool
  native : Bool
  taxon_id : Int
  kingdom : Option String
  phylum : Option String
  class_rank : Option String
  order : Option String
  family : Option String
  genus : Option String
deriving DecidableEq, Repr

/-- Embedding of `formatINaturalistData` (script.js lines 434-507).  The
function is total: every field access is guarded, so no input makes the JS
function throw. -/
def formatINaturalistData (taxon : INatTaxon) : INatPlant :=
  let imageUrl :=
    match taxon.default_photo with
    | some p =>
      jsStrOr p.medium_url (jsStrOr p.original_url (jsStrOr p.large_url
        (jsStrOr p.small_url (jsStrOr p.url PLACEHOLDER_IMG))))
    | none =>
      match taxon.taxon_photos with
      | some (tp :: _) =>
        jsStrOr tp.photo.medium_url (jsStrOr tp.photo.original_url
          (jsStrOr tp.photo.large_url (jsStrOr tp.photo.url PLACEHOLDER_IMG)))
      | _ => PLACEHOLDER_IMG
  let ranks0 : TaxRanks :=
    ⟨some "N/A", some "N/A", some "N/A", some "N/A", some "N/A", some "N/A"⟩
  let ranks1 :=
    match taxon.ancestors with
    | some ancestors => ancestors.foldl applyAncestor ranks0
    | none => ranks0
  let ranks :=
    if taxon.rank = some "kingdom" then { ranks1 with kingdom := taxon.name }
    else if taxon.rank = some "phylum" then { ranks1 with phylum := taxon.name }
    else if taxon.rank = some "class" then { ranks1 with class_rank := taxon.name }
    else if taxon.rank = some "order" then { ranks1 with order := taxon.name }
    else if taxon.rank = some "family" then { ranks1 with family := taxon.name }
    else if taxon.rank = some "genus" then { ranks1 with genus := taxon.name }
    else ranks1
  let commonName := jsOptOr taxon.preferred_common_name taxon.name
  let scientificName := taxon.name
  let wikipediaUrl :=
    jsOptOr taxon.wikipedia_url
      (jsOptOr (getWikipediaUrl commonName) (getWikipediaUrl scientificName))
  { id := "inat_" ++ toString taxon.id
    source := "inaturalist"
    common_name := commonName
    scientific_name := scientificName
    description := jsOptOr taxon.wikipedia_summary taxon.observations
    image_url := imageUrl
    rank := jsStrOr taxon.rank "N/A"
    iconic_taxon_name := jsStrOr taxon.iconic_taxon_name "N/A"
    observations_count := jsNumOr taxon.observations_count
    wikipedia_url := wikipediaUrl
    is_active := jsBoolOr taxon.is_active
    endemic := jsBoolOr taxon.endemic
    threatened := jsBoolOr taxon.threatened
    introduced := jsBoolOr taxon.introduced
    native := jsBoolOr taxon.native
    taxon_id := taxon.id
    kingdom := ranks.kingdom
    phylum := ranks.phylum
    class_rank := ranks.class_rank
    order := ranks.order
    family := ranks.family
    genus := ranks.genus }

/-- Raw Toxic Shrooms record, with exactly the fields
`formatToxicShroomData` (script.js lines 630-670) reads. -/
structure ToxicRaw where
  name : Option String
  commonname : Option String
  img : Option String
  distribution : JsStrField
  agent : Option String
  type : Option String
deriving DecidableEq, Repr

/-- Record produced by `formatToxicShroomData`.  `toxicity_type` is the
raw `type` field passed through without a default. -/
structure ToxicPlant where
  id : String
  source : String
  common_name : String
  scientific_name : String
  description : String
  image_url : String
  toxicity_type : Option String
  toxic_agent : String
  distribution : String
  wikipedia_url : Option String
deriving DecidableEq, Repr

/-- Embedding of `formatToxicShroomData` (script.js lines 630-670).  The
very first computation, `data.name.replace(/\s+/g, "_")` inside the id
template, throws a `TypeError` when `name` is `undefined`/`null`; this is
modelled by returning `none`.  With `name` present the function is total. -/
def formatToxicShroomData (data : ToxicRaw) : Option ToxicPlant :=
  match data.name with
  | none => none
  | some nm =>
    let imageUrl :=
      match data.img with
      | some im =>
        if im = "" then PLACEHOLDER_IMG
        else if jsIncludes im "commons.wikimedia.org" then im
        else if jsStartsWith im "//" then "https:" ++ im
        else if jsStartsWith im "http" then im
        else PLACEHOLDER_IMG
      | none => PLACEHOLDER_IMG
    let distribution :=
      match data.distribution with
      | .arr xs =>
        let filtered := xs.filter (fun d => !(d = "") && !(jsTrim d = ""))
        if filtered.length > 0 then String.intercalate ", " filtered else "Unknown"
      | .str s => if s = "" then "Unknown" else s
      | .absent => "Unknown"
    let commonName := jsStrOr data.commonname nm
    let scientificName := nm
    let wikipediaUrl :=
      jsOptOr (getWikipediaUrl (some commonName)) (getWikipediaUrl (some scientificName))
    some
      { id := "toxic_" ++ collapseWsToUnderscore nm
        source := "toxicshrooms"
        common_name := commonName
        scientific_name := scientificName
        description := "Toxic agent: " ++ jsStrOr data.agent "Unknown"
          ++ ". Distribution: " ++ distribution
        image_url := imageUrl
        toxicity_type := data.type
        toxic_agent := jsStrOr data.agent "Unknown toxins"
        distribution := distribution
        wikipedia_url := wikipediaUrl }

/-- The `enabled` flags of `API_SOURCES` (script.js lines 15-19),
parameterized so that configurations other than the shipped one can be
stated. -/
structure APISources where
  perenual : Bool
  inaturalist : Bool
  toxicshrooms : Bool
deriving DecidableEq, Repr

/-- The shipped configuration: every source enabled. -/
def API_SOURCES : APISources := ⟨true, true, true⟩

/-- Body of an iNaturalist `/v1/taxa` response. -/
structure INatResp where
  results : Option (List INatTaxon)
  total_results : Option Int
deriving DecidableEq, Repr

/-- Value returned by `searchINaturalist`: always a record with a result
array and a count (never an exception). -/
structure INatSearchOut where
  results : List INatTaxon
  total_results : Int
deriving DecidableEq, Repr

/-- Embedding of `searchINaturalist` (script.js lines 365-413), paired
with the number of network calls it issues.  A disabled source returns
`{results: [], total_results: 0}` before any fetch; the internal
`try/catch` converts every fetch failure into the same empty result. -/
def searchINaturalist (cfg : APISources) (query : String) (page : Int)
    (taxonId : Option Int) (perPage : Int) (res : JsFetch INatResp) :
    INatSearchOut × Nat :=
  if !cfg.inaturalist then (⟨[], 0⟩, 0)
  else
    match res with
    | .ok d => (⟨d.results.getD [], jsNumOr d.total_results⟩, 1)
    | .httpErr _ => (⟨[], 0⟩, 1)
    | .netErr => (⟨[], 0⟩, 1)

/-- Embedding of `getToxicShrooms` (script.js lines 514-530), paired with
its network-call count: empty list before any fetch when disabled, empty
list on any fetch failure. -/
def getToxicShrooms (cfg : APISources) (type : Option String)
    (res : JsFetch (List ToxicRaw)) : List ToxicRaw × Nat :=
  if !cfg.toxicshrooms then ([], 0)
  else
    match res with
    | .ok l => (l, 1)
    | .httpErr _ => ([], 1)
    | .netErr => ([], 1)

/-- Options of `multiSourceSearch` (script.js lines 679-683). -/
structure MSOpts where
  includePerenual : Bool
  includeINaturalist : Bool
  includeFungi : Bool
deriving DecidableEq, Repr

/-- The defaults applied when `multiSourceSearch` is called without
options: `includePerenual = true`, `includeINaturalist = true`,
`includeFungi = false`. -/
def defaultMSOpts : MSOpts := ⟨true, true, false⟩

/-- The `results` record built by `multiSourceSearch` (script.js lines
686-691). -/
structure MSResults where
  perenual : List PerenualRaw
  inaturalist : List INatPlant
  toxicshrooms : List ToxicPlant
  total : Int
deriving DecidableEq, Repr

/-- Network calls issued per source during one `multiSourceSearch`. -/
structure MSCalls where
  perenual : Nat
  inaturalist : Nat
  toxicshrooms : Nat
deriving DecidableEq, Repr

/-- Query filter applied to Toxic Shrooms records (script.js lines
724-728): name or common name contains the query, case-insensitively;
absent or empty fields never match. -/
def shroomMatches (query : String) (s : ToxicRaw) : Bool :=
  (match s.name with
   | some n => !(n = "") && jsIncludes (jsToLowerCase n) (jsToLowerCase query)
   | none => false)
  ||
  (match s.commonname with
   | some n => !(n = "") && jsIncludes (jsToLowerCase n) (jsToLowerCase query)
   | none => false)

/-- Embedding of `multiSourceSearch` (script.js lines 678-743).  Each
enabled-and-requested source issues exactly one fetch, whose outcome is
supplied by `pres` / `ires` / `tres`.  Every branch carries a `.catch` in the
source, so a failing branch leaves its field of `results` at the initial
`[]` and no combination of outcomes escapes as an exception; if the Toxic
Shrooms mapping throws (a record without `name`), that branch's `.catch`
also leaves `[]`.  Only the Perenual branch adds to `total`. -/
def multiSourceSearch (query : String) (opts : MSOpts) (cfg : APISources)
    (pres : JsFetch PerenualListResp) (ires : JsFetch INatResp)
    (tres : JsFetch (List ToxicRaw)) : MSResults × MSCalls :=
  let pBranch : List PerenualRaw × Int × Nat :=
    if opts.includePerenual && cfg.perenual then
      match getPlantList pres with
      | .ok d => (d.data.getD [], jsNumOr d.total, 1)
      | .error _ => ([], 0, 1)
    else ([], 0, 0)
  let iBranch : List INatPlant × Nat :=
    if opts.includeINaturalist && cfg.inaturalist then
      let taxonId := if opts.includeFungi then some (47170 : Int) else none
      let r := searchINaturalist cfg query 1 taxonId 30 ires
      (r.1.results.map formatINaturalistData, r.2)
    else ([], 0)
  let tBranch : List ToxicPlant × Nat :=
    if opts.includeFungi && cfg.toxicshrooms then
      let r := getToxicShrooms cfg none tres
      let filtered := if !(query = "") then r.1.filter (shroomMatches query) else r.1
      (match filtered.mapM formatToxicShroomData with
       | some l => l
       | none => [], r.2)
    else ([], 0)
  (⟨pBranch.1, iBranch.1, tBranch.1, pBranch.2.1⟩,
   ⟨pBranch.2.2, iBranch.2, tBranch.2⟩)

/-- Search record as consumed by `combineSearchResults`: the two name
fields it reads, the `source` field it overwrites, and an opaque `payload`
standing for the remaining fields the object spread copies. -/
structure SItem where
  scientific_name : Option String
  common_name : Option String
  source : String
  payload : String
deriving DecidableEq, Repr

/-- Dedup key of `combineSearchResults` (script.js line 756):
`(item.scientific_name || item.common_name || "").toLowerCase().trim()`. -/
def dedupKey (it : SItem) : String :=
  jsTrim (jsToLowerCase (jsStrOr it.scientific_name (jsStrOr it.common_name "")))

/-- The `addResults` helper of `combineSearchResults` (script.js lines
753-765), folded over one source's list.  State: the `combined` output
list and the `seen` key set. -/
def addResults (acc : List SItem × List String) (results : List SItem)
    (source : String) : List SItem × List String :=
  results.foldl
    (fun acc item =>
      let key := dedupKey item
      if !(key = "") && !(acc.2.contains key) then
        (acc.1 ++ [{ item with source := source }], key :: acc.2)
      else if key = "" then
        (acc.1 ++ [{ item with source := source }], acc.2)
      else acc)
    acc

/-- Per-source input lists of `combineSearchResults`. -/
structure CombinedInput where
  perenual : List SItem
  inaturalist : List SItem
  toxicshrooms : List SItem
deriving DecidableEq, Repr

/-- Embedding of `combineSearchResults` (script.js lines 748-773): sources
are folded in the fixed order perenual, inaturalist, toxicshrooms over one
shared seen-set. -/
def combineSearchResults (r : CombinedInput) : List SItem :=
  (addResults
    (addResults
      (addResults ([], []) r.perenual "perenual")
      r.inaturalist "inaturalist")
    r.toxicshrooms "toxicshrooms").1

/-- Raw Perenual record with every optional field absent. -/
def emptyPerenualRaw : PerenualRaw :=
  { id := none
    common_name := none
    scientific_name := .absent
    description := none
    default_image := none
    cycle := none
    watering := none
    sunlight := .absent
    watering_period := none
    watering_general_benchmark := none
    depth_water_requirement := none
    volume_water_requirement := none
    dimension := none
    type := none
    growth_rate := none
    maintenance := none
    care_level := none
    flowers := none
    flowering_season := none
    flower_color := none
    edible_fruit := none
    edible_leaf := none
    poisonous_to_humans := none
    poisonous_to_pets := none
    medicinal := none
    invasive := none
    tropical := none
    indoor := none
    cuisine := none
    hardiness := none
    hardiness_location := none
    soil := .absent
    propagation := .absent
    attracts := .absent
    origin := .absent
    other_name := .absent }

/-- A concrete payload value for cache fixtures. -/
def stalePlant : Plant := formatPlantData emptyPerenualRaw

/-- A `localStorage` state holding one details entry, written under key
`plant_1` at time `0`. -/
def lsPlant1 : LS :=
  ⟨fun k => if k = "plant_1" then some stalePlant else none,
   fun k => if k = "plant_1_time" then some 0 else none⟩

/-- Fetch oracle whose every attempt yields HTTP 429. -/
def fetch429 : Nat → JsFetch PerenualRaw := fun _ => .httpErr 429

/-- Fetch oracle whose every attempt yields HTTP 500. -/
def fetch500 : Nat → JsFetch PerenualRaw := fun _ => .httpErr 500

/-- In-memory `plantCache` holding one record under the id `inat_42`. -/
def memInat42 : String → Option Plant :=
  fun k => if k = "inat_42" then some stalePlant else none

/-- Raw iNaturalist taxon with every optional field absent. -/
def emptyINatTaxon : INatTaxon :=
  { id := 7
    name := none
    preferred_common_name := none
    rank := none
    iconic_taxon_name := none
    observations_count := none
    wikipedia_url := none
    wikipedia_summary := none
    observations := none
    is_active := none
    endemic := none
    threatened := none
    introduced := none
    native := none
    ancestry := none
    ancestors := none
    default_photo := none
    taxon_photos := none }

/-- Raw Toxic Shrooms record with `name` present and every other field
absent. -/
def toxNameOnly : ToxicRaw :=
  ⟨some "Amanita phalloides", none, none, .absent, none, none⟩

/-- Raw Toxic Shrooms record with every field absent, `name` included. -/
def toxAllAbsent : ToxicRaw := ⟨none, none, none, .absent, none, none⟩

/-- Backend failure classifier: `true` for every fetch outcome that is not
a parsed 2xx body. -/
def failRes : JsFetch PerenualRaw → Bool
  | .ok _ => false
  | .httpErr _ => true
  | .netErr => true

/-- Error thrown by the `getPlantDetails` loop for a failing fetch
outcome (the `.ok` case is arbitrary; it is excluded wherever this is
used). -/
def failErrOf : JsFetch PerenualRaw → FetchError
  | .httpErr s => if s = 429 then .rateLimited else .requestFailed s
  | .netErr => .netError
  | .ok _ => .netError

/-- Higher-priority record of the spec's dedup example. -/
def itemHiPri : SItem := ⟨some "Amanita phalloides", none, "inaturalist", "A"⟩

/-- Lower-priority record of the spec's dedup example: same scientific
name up to case and a trailing space. -/
def itemLoPri : SItem := ⟨some "amanita phalloides ", none, "toxicshrooms", "B"⟩

/-- Claim C7: a read of the plant-details cache returns the cached payload,
with zero network calls, exactly when an entry and its timestamp are
present and its age is strictly below the 24-hour TTL; an entry written at
`t` is readable at `t + TTL - 1` and absent at `t + TTL + 1`, and a fresh
hit short-circuits `getPlantDetails` entirely. -/
theorem claim_C7 (ls : LS) (key : String) (now : Int) (p : Plant) :
    (cacheLookup ls key now = some p ↔
      ls.plant key = some p ∧
        ∃ t, ls.time (key ++ "_time") = some t ∧ now - t < CACHE_TTL_MS)
    ∧ (∀ (id : PlantId) (retries : Nat) (mem : String → Option Plant)
        (fetch : Nat → JsFetch PerenualRaw),
        cacheLookup ls (cacheKey id) now = some p →
        getPlantDetails id retries ls mem now fetch = (.ok (some p), 0))
    ∧ (∀ t : Int, ls.plant key = some p → ls.time (key ++ "_time") = some t →
        cacheLookup ls key (t + CACHE_TTL_MS - 1) = some p
          ∧ cacheLookup ls key (t + CACHE_TTL_MS + 1) = none) := by
  refine ⟨?_, ?_, ?_⟩
  · unfold cacheLookup CACHE_TTL_MS
    cases hp : ls.plant key with
    | none => simp
    | some q =>
      cases ht : ls.time (key ++ "_time") with
      | none => simp
      | some t =>
        by_cases hlt : now - t < 86400000
        · simp [hlt]
        · simp [hlt]
  · intro id retries mem fetch h
    simp only [getPlantDetails, h]
  · intro t hp ht
    simp only [cacheLookup, CACHE_TTL_MS, hp, ht]
    constructor
    · have h1 : t + 86400000 - 1 - t < 86400000 := by omega
      simp [h1]
    · have h2 : ¬(t + 86400000 + 1 - t < 86400000) := by omega
      simp [h2]

/-- Witness for claim C7 at a concrete store: an entry written at time 0 is
returned without any fetch at time 1000, is still readable one millisecond
before the TTL boundary, and is treated as absent one millisecond after. -/
theorem claim_C7_witness :
    getPlantDetails (.num 1) 1 lsPlant1 (fun _ => none) 1000 fetch429
      = (.ok (some stalePlant), 0)
    ∧ cacheLookup lsPlant1 "plant_1" (0 + CACHE_TTL_MS - 1) = some stalePlant
    ∧ cacheLookup lsPlant1 "plant_1" (0 + CACHE_TTL_MS + 1) = none := by
  have h := claim_C7 lsPlant1 "plant_1" 1000 stalePlant
  exact ⟨h.2.1 (.num 1) 1 (fun _ => none) fetch429 rfl,
    (h.2.2 0 rfl rfl).1, (h.2.2 0 rfl rfl).2⟩

/-- Claim C10: for a string id with a non-Perenual source tag and no fresh
`localStorage` entry, `getPlantDetails` issues zero network calls and
returns the in-memory `plantCache` record when present, otherwise throws
the non-Perenual error. -/
theorem claim_C10 (s : String) (retries : Nat) (ls : LS)
    (mem : String → Option Plant) (now : Int) (fetch : Nat → JsFetch PerenualRaw)
    (hpre : jsStartsWith s "inat_" = true ∨ jsStartsWith s "toxic_" = true
      ∨ jsStartsWith s "gbif_" = true ∨ jsStartsWith s "trefle_" = true)
    (hmiss : cacheLookup ls (cacheKey (.str s)) now = none) :
    (getPlantDetails (.str s) retries ls mem now fetch).2 = 0
    ∧ getPlantDetails (.str s) retries ls mem now fetch
        = (match mem s with
           | some p => (.ok (some p), 0)
           | none => (.error (.nonPerenualNoCache s), 0)) := by
  have hnp : isNonPerenual (.str s) = true := by
    unfold isNonPerenual
    rcases hpre with h | h | h | h <;> simp [h]
  have hbody : getPlantDetails (.str s) retries ls mem now fetch
      = (match mem s with
         | some p => (.ok (some p), 0)
         | none => (.error (.nonPerenualNoCache s), 0)) := by
    simp only [getPlantDetails, hmiss, hnp, if_true, PlantId.render]
  exact ⟨by rw [hbody]; cases mem s <;> rfl, hbody⟩

/-- Witness for claim C10: with the in-memory cache populated the record
is returned, and with it empty the non-Perenual error is thrown; both with
zero fetches. -/
theorem claim_C10_witness :
    getPlantDetails (.str "inat_42") 3 emptyLS memInat42 0 fetch429
      = (.ok (some stalePlant), 0)
    ∧ getPlantDetails (.str "toxic_x") 2 emptyLS (fun _ => none) 0 fetch429
        = (.error (.nonPerenualNoCache "toxic_x"), 0) := by
  constructor
  · exact ((claim_C10 "inat_42" 3 emptyLS memInat42 0 fetch429
      (Or.inl (by decide)) rfl).2).trans rfl
  · exact ((claim_C10 "toxic_x" 2 emptyLS (fun _ => none) 0 fetch429
      (Or.inr (Or.inl (by decide))) rfl).2).trans rfl

/-- The retry loop of `getPlantDetails` against an always-failing backend:
exactly `fuel` fetches are issued and the error classified from the last
attempt's outcome is thrown. -/
lemma gpdLoop_allFail (fetch : Nat → JsFetch PerenualRaw)
    (hfail : ∀ n, failRes (fetch n) = true) :
    ∀ (fuel attempt : Nat), 1 ≤ fuel →
      gpdLoop fetch attempt fuel
        = (.error (failErrOf (fetch (attempt + fuel - 1))), fuel) := by
  intro fuel
  induction fuel with
  | zero => intro attempt h; omega
  | succ k ih =>
    intro attempt _
    have hf := hfail attempt
    cases hres : fetch attempt with
    | ok d => rw [hres] at hf; simp [failRes] at hf
    | httpErr s =>
      by_cases hk : k = 0
      · subst hk
        simp [gpdLoop, hres, failErrOf]
      · have h1 : 1 ≤ k := Nat.one_le_iff_ne_zero.mpr hk
        have harith : attempt + 1 + k - 1 = attempt + (k + 1) - 1 := by omega
        simp [gpdLoop, hres, hk, ih (attempt + 1) h1, harith, failErrOf]
    | netErr =>
      by_cases hk : k = 0
      · subst hk
        simp [gpdLoop, hres, failErrOf]
      · have h1 : 1 ≤ k := Nat.one_le_iff_ne_zero.mpr hk
        have harith : attempt + 1 + k - 1 = attempt + (k + 1) - 1 := by omega
        simp [gpdLoop, hres, hk, ih (attempt + 1) h1, harith, failErrOf]

/-- Claim C8: with any retries bound `r ≥ 1`, a cache miss and a backend
that fails every attempt, `getPlantDetails` issues at most `r` fetches
(exactly `r`) and then throws the error of the last attempt. -/
theorem claim_C8 (id : PlantId) (retries : Nat) (ls : LS)
    (mem : String → Option Plant) (now : Int) (fetch : Nat → JsFetch PerenualRaw)
    (hr : 1 ≤ retries) (hfail : ∀ n, failRes (fetch n) = true)
    (hmiss : cacheLookup ls (cacheKey id) now = none)
    (hper : isNonPerenual id = false) :
    (getPlantDetails id retries ls mem now fetch).2 ≤ retries
    ∧ getPlantDetails id retries ls mem now fetch
        = (.error (failErrOf (fetch retries)), retries) := by
  have hbody : getPlantDetails id retries ls mem now fetch = gpdLoop fetch 1 retries := by
    simp only [getPlantDetails, hmiss, hper, Bool.false_eq_true, if_false]
  have harith : 1 + retries - 1 = retries := by omega
  rw [hbody, gpdLoop_allFail fetch hfail retries 1 hr, harith]
  exact ⟨le_refl _, rfl⟩

/-- Witness for claim C8: two retries against a backend answering HTTP 500
every time yield exactly two fetches and the status-500 error. -/
theorem claim_C8_witness :
    getPlantDetails (.num 3) 2 emptyLS (fun _ => none) 0 fetch500
      = (.error (.requestFailed 500), 2) := by
  exact ((claim_C8 (.num 3) 2 emptyLS (fun _ => none) 0 fetch500 (by omega)
    (fun _ => rfl) rfl rfl).2).trans rfl

/-- Claim C2 (code bug): evaluation at the failing input.  With
`retries = 2` and a backend answering HTTP 429 on every attempt,
`getPlantDetails` issues a second fetch before propagating the rate-limit
error — the unconditional 429 `throw` inside the `try` block is caught by
the surrounding `catch`, which retries it like any other error, so the
count is 2, not 1. -/
theorem claim_C2_code_eval :
    getPlantDetails (.num 1) 2 emptyLS (fun _ => none) 0 fetch429
      = (.error .rateLimited, 2) := rfl

/-- Claim C1 counterexample: a stale (TTL-expired) entry is present under
the requested id's cache key `plant_1`, every fetch answers HTTP 429, and
`getPlantDetails` nevertheless propagates the rate-limit error instead of
returning the stale payload. -/
theorem claim_C1_counterexample :
    lsPlant1.plant "plant_1" = some stalePlant
    ∧ lsPlant1.time "plant_1_time" = some 0
    ∧ ¬((86400001 : Int) - 0 < CACHE_TTL_MS)
    ∧ getPlantDetails (.num 1) 1 lsPlant1 (fun _ => none) 86400001 fetch429
        = (.error .rateLimited, 1) :=
  ⟨rfl, rfl, by decide, rfl⟩

/-- Claim C1 as amended: `getPlantDetails` itself propagates the
rate-limit error; the stale-tolerant fallback lives in `getRandomPlant`,
which, when the inner call fails with an error whose message includes
"rate limit", returns the payload of the first curated id that has any
`localStorage` entry, ignoring the TTL and the timestamp entry entirely. -/
theorem claim_C1_amended (ls : LS) (mem : String → Option Plant) (now : Int)
    (r1 r2 : Nat) (fetch : Nat → JsFetch PerenualRaw) (p : Plant)
    (hrl : (getPlantDetails (.num (chosenRandomId ls now r1 r2)) 1 ls mem now fetch).1
      = .error .rateLimited)
    (hfound : CURATED_PLANT_IDS.findSome?
        (fun id => ls.plant ("plant_" ++ toString id)) = some p) :
    getRandomPlant ls mem now r1 r2 fetch = .ok (some p) := by
  unfold getRandomPlant
  rcases hg : getPlantDetails (.num (chosenRandomId ls now r1 r2)) 1 ls mem now fetch
    with ⟨res, calls⟩
  rw [hg] at hrl
  simp only at hrl
  subst hrl
  simp only [hg]
  have hinc : jsIncludes (errorMessage .rateLimited) "rate limit" = true := by decide
  simp [hinc, hfound]

/-- Witness for the amended claim C1: one stale entry for curated id 1,
rate-limited fetches — `getRandomPlant` returns the stale payload. -/
theorem claim_C1_amended_witness :
    getRandomPlant lsPlant1 (fun _ => none) 86400001 0 0 fetch429
      = .ok (some stalePlant) :=
  claim_C1_amended lsPlant1 (fun _ => none) 86400001 0 0 fetch429 stalePlant rfl rfl

/-- Claim C3 counterexample: the cooldown is not enforced between every
two calls to one source.  A `getPlantDetails` fetch to Perenual goes out
at time 0 (`lastApiCallTime = 0`); a `getPlantList` call to the same
source one millisecond later issues its fetch immediately — 1 ms apart,
far below the 2000 ms cooldown — because `getPlantList` contains no
cooldown logic and never reads or updates `lastApiCallTime`. -/
theorem claim_C3_counterexample :
    gpdFetchIssueTime 0 (-2000) = 0
    ∧ getPlantListIssueTime 1 0 = 1
    ∧ getPlantListNewLast 1 0 = 0
    ∧ ¬(API_COOLDOWN_MS ≤ (1 : Int) - 0) := by
  refine ⟨by decide, rfl, rfl, by decide⟩

/-- Claim C3 as amended: a single module-wide `lastApiCallTime` is shared
rather than one timestamp per source, and only the `getPlantDetails` fetch
path enforces the 2000 ms cooldown — its fetch is always issued at least
`API_COOLDOWN_MS` after the recorded last call — while `getPlantList`
issues its fetch at the invocation time and leaves the timestamp
unchanged. -/
theorem claim_C3_amended (now lastApiCallTime : Int) :
    API_COOLDOWN_MS ≤ gpdFetchIssueTime now lastApiCallTime - lastApiCallTime
    ∧ getPlantListIssueTime now lastApiCallTime = now
    ∧ getPlantListNewLast now lastApiCallTime = lastApiCallTime := by
  refine ⟨?_, rfl, rfl⟩
  unfold gpdFetchIssueTime gpdWaitTime API_COOLDOWN_MS
  split_ifs with h <;> omega

/-- Claim C4 counterexample: `formatToxicShroomData` is not total — on a
record with no `name` it throws (`data.name.replace` on `undefined`) — and
on a record with only `name` present the produced `toxicity_type` field is
`undefined`, not a defined sentinel: the raw `type` field passes through
with no default. -/
theorem claim_C4_counterexample :
    formatToxicShroomData toxAllAbsent = none
    ∧ (formatToxicShroomData toxNameOnly).map ToxicPlant.toxicity_type = some none :=
  ⟨rfl, rfl⟩

/-- Claim C4 as amended: the normalizers are neither uniformly total nor
uniformly sentinel-defaulting.  `formatPlantData` and
`formatINaturalistData` never throw on any input, while
`formatToxicShroomData` throws exactly when the raw `name` is absent.  Not
every absent optional field maps to a sentinel: `formatToxicShroomData`
passes the raw `type` through as `toxicity_type` with no default;
`formatINaturalistData` passes the raw `name` through as
`scientific_name` with no default, and on an all-absent taxon its
`common_name`, `scientific_name` and `description` are all
`undefined`/`null`; `formatPlantData` passes the raw `id` through with no
default.  The remaining absent optional fields map to defined defaults,
which are not uniformly `"N/A"` (`"Unknown Plant"`,
`"No description available."`, the placeholder image, `"Unknown"`,
`false`, `0` also occur). -/
theorem claim_C4_amended :
    (∀ d : ToxicRaw, (formatToxicShroomData d).isSome = d.name.isSome)
    ∧ (∀ d : ToxicRaw, (formatToxicShroomData d).map ToxicPlant.toxicity_type
        = if d.name.isSome then some d.type else none)
    ∧ (∀ taxon : INatTaxon, (formatINaturalistData taxon).scientific_name = taxon.name)
    ∧ (∀ data : PerenualRaw, (formatPlantData data).id = data.id)
    ∧ formatPlantData emptyPerenualRaw =
        { id := none
          source := "perenual"
          common_name := "Unknown Plant"
          scientific_name := .str "N/A"
          description := "No description available."
          image_url := "MushroomApp.png"
          wikipedia_url := some "https://en.wikipedia.org/wiki/Unknown_Plant"
          cycle := "N/A"
          watering := "N/A"
          sunlight := "N/A"
          watering_period := "N/A"
          watering_general_benchmark := { value := "N/A", unit := "" }
          depth_water_requirement := { value := "N/A", unit := "" }
          volume_water_requirement := { value := "N/A", unit := "" }
          dimension := "N/A"
          type := "N/A"
          growth_rate := "N/A"
          maintenance := "N/A"
          care_level := "N/A"
          flowers := false
          flowering_season := "N/A"
          flower_color := "N/A"
          edible_fruit := false
          edible_leaf := false
          poisonous_to_humans := 0
          poisonous_to_pets := 0
          medicinal := false
          invasive := false
          tropical := false
          indoor := false
          cuisine := false
          hardiness := { min := "N/A", max := "N/A" }
          hardiness_location := { full_url := none, full_iframe := none }
          soil := "N/A"
          propagation := "N/A"
          attracts := "N/A"
          origin := "N/A"
          other_name := "N/A" }
    ∧ formatINaturalistData emptyINatTaxon =
        { id := "inat_7"
          source := "inaturalist"
          common_name := none
          scientific_name := none
          description := none
          image_url := "MushroomApp.png"
          rank := "N/A"
          iconic_taxon_name := "N/A"
          observations_count := 0
          wikipedia_url := none
          is_active := false
          endemic := false
          threatened := false
          introduced := false
          native := false
          taxon_id := 7
          kingdom := some "N/A"
          phylum := some "N/A"
          class_rank := some "N/A"
          order := some "N/A"
          family := some "N/A"
          genus := some "N/A" }
    ∧ formatToxicShroomData toxNameOnly = some
        { id := "toxic_Amanita_phalloides"
          source := "toxicshrooms"
          common_name := "Amanita phalloides"
          scientific_name := "Amanita phalloides"
          description := "Toxic agent: Unknown. Distribution: Unknown"
          image_url := "MushroomApp.png"
          toxicity_type := none
          toxic_agent := "Unknown toxins"
          distribution := "Unknown"
          wikipedia_url := some "https://en.wikipedia.org/wiki/Amanita_phalloides" } := by
  refine ⟨?_, ?_, fun _ => rfl, fun _ => rfl, rfl, rfl, rfl⟩
  · intro d
    rcases d with ⟨nm, cn, im, di, ag, ty⟩
    cases nm <;> rfl
  · intro d
    rcases d with ⟨nm, cn, im, di, ag, ty⟩
    cases nm <;> rfl

/-- One cons step of the `addResults` fold. -/
lemma addResults_cons (acc : List SItem × List String) (it : SItem)
    (rest : List SItem) (source : String) :
    addResults acc (it :: rest) source =
      addResults
        (let key := dedupKey it
         if !(key = "") && !(acc.2.contains key) then
           (acc.1 ++ [{ it with source := source }], key :: acc.2)
         else if key = "" then (acc.1 ++ [{ it with source := source }], acc.2)
         else acc)
        rest source := rfl

/-- The fold never shrinks the combined list. -/
lemma addResults_length_mono (results : List SItem) :
    ∀ (acc : List SItem × List String) (source : String),
      acc.1.length ≤ (addResults acc results source).1.length := by
  induction results with
  | nil => intro acc source; exact le_refl _
  | cons it rest ih =>
    intro acc source
    rw [addResults_cons]
    by_cases h2 : dedupKey it = ""
    · simp only [h2, decide_True, Bool.not_true, Bool.false_and, Bool.false_eq_true,
        if_false, if_true]
      calc acc.1.length ≤ (acc.1 ++ [{ it with source := source }]).length := by simp
        _ ≤ _ := ih (acc.1 ++ [{ it with source := source }], acc.2) source
    · by_cases h1 : acc.2.contains (dedupKey it)
      · simp only [h2, h1, decide_False, Bool.not_false, Bool.not_true, Bool.true_and,
          Bool.false_eq_true, if_false]
        exact ih acc source
      · simp only [h2, h1, decide_False, Bool.not_false, Bool.true_and, if_true]
        calc acc.1.length ≤ (acc.1 ++ [{ it with source := source }]).length := by simp
          _ ≤ _ := ih (acc.1 ++ [{ it with source := source }], dedupKey it :: acc.2) source

/-- Claim C5: `combineSearchResults` folds the sources in the fixed order
perenual, inaturalist, toxicshrooms, and each record is processed by the
step characterized here — an unseen non-empty dedup key (lower-cased,
trimmed scientific name, falling back to common name) appends the record
and marks the key seen; a seen key drops the record (first seen wins,
no merging); an empty key always appends, and the fold never drops an
already-appended record; the spec's mixed-case example yields exactly one
record from the higher-priority source. -/
theorem claim_C5 :
    (∀ (combined : List SItem) (seen : List String) (item : SItem) (source : String),
      addResults (combined, seen) [item] source =
        (let key := dedupKey item
         if !(key = "") && !(seen.contains key) then
           (combined ++ [{ item with source := source }], key :: seen)
         else if key = "" then (combined ++ [{ item with source := source }], seen)
         else (combined, seen)))
    ∧ (∀ (acc : List SItem × List String) (it : SItem) (rest : List SItem)
        (source : String), dedupKey it = "" →
        addResults acc (it :: rest) source
          = addResults (acc.1 ++ [{ it with source := source }], acc.2) rest source)
    ∧ (∀ (results : List SItem) (acc : List SItem × List String) (source : String),
        acc.1.length ≤ (addResults acc results source).1.length)
    ∧ dedupKey itemHiPri = dedupKey itemLoPri
    ∧ combineSearchResults ⟨[], [itemHiPri], [itemLoPri]⟩
        = [{ itemHiPri with source := "inaturalist" }] := by
  refine ⟨fun _ _ _ _ => rfl, ?_, fun r => addResults_length_mono r, rfl, rfl⟩
  intro acc it rest source h
  rw [addResults_cons]
  simp [h]

/-- A non-2xx status always makes `getPlantList` throw, with the error
chosen by the status. -/
lemma getPlantList_httpErr (s : Int) :
    getPlantList (.httpErr s)
      = .error (if s = 429 then .rateLimited else .listRequestFailed s) := by
  by_cases h : s = 429
  · subst h
    rfl
  · show (if s = 429 then Except.error FetchError.rateLimited
        else Except.error (FetchError.listRequestFailed s))
      = Except.error (if s = 429 then FetchError.rateLimited
        else FetchError.listRequestFailed s)
    rw [if_neg h, if_neg h]

/-- Claim C6: with all three sources enabled and requested, no combination
of per-source fetch outcomes makes `multiSourceSearch` fail; a failing
source contributes the empty list and each succeeding source contributes
exactly its own pipeline's list, unaffected by the other sources'
outcomes. -/
theorem claim_C6 (query : String) (pres : JsFetch PerenualListResp)
    (ires : JsFetch INatResp) (tres : JsFetch (List ToxicRaw)) :
    ((multiSourceSearch query ⟨true, true, true⟩ API_SOURCES pres ires tres).1.perenual
      = match pres with
        | .ok d => d.data.getD []
        | .httpErr _ => []
        | .netErr => [])
    ∧ ((multiSourceSearch query ⟨true, true, true⟩ API_SOURCES pres ires tres).1.inaturalist
      = match ires with
        | .ok d => (d.results.getD []).map formatINaturalistData
        | .httpErr _ => []
        | .netErr => [])
    ∧ ((multiSourceSearch query ⟨true, true, true⟩ API_SOURCES pres ires tres).1.toxicshrooms
      = match tres with
        | .ok l =>
          (match ((if !(query = "") then l.filter (shroomMatches query) else l).mapM
            formatToxicShroomData) with
           | some res => res
           | none => [])
        | .httpErr _ => []
        | .netErr => []) := by
  refine ⟨?_, ?_, ?_⟩
  · cases pres <;>
      first
      | rfl
      | simp [multiSourceSearch, getPlantList_httpErr, API_SOURCES]
  · cases ires <;> rfl
  · cases tres <;>
      first
      | rfl
      | (simp [multiSourceSearch, getToxicShrooms, API_SOURCES]
         rfl)

/-- Claim C9 counterexample: with the shipped configuration (every source
enabled) and the default options (`includeFungi = false`), the enabled
Toxic Shrooms source receives zero calls, refuting "each enabled source
receives exactly one call". -/
theorem claim_C9_counterexample :
    API_SOURCES.toxicshrooms = true
    ∧ (multiSourceSearch "rose" defaultMSOpts API_SOURCES .netErr .netErr .netErr).2.toxicshrooms
        = 0 :=
  ⟨rfl, rfl⟩

/-- Claim C9 as amended: a source receives exactly one network call when
it is both enabled and selected by the options, and zero calls otherwise;
in particular a disabled source is skipped entirely, contributing an empty
list, and `searchINaturalist` itself issues no call when its source is
disabled. -/
theorem claim_C9_amended (query : String) (opts : MSOpts) (cfg : APISources)
    (pres : JsFetch PerenualListResp) (ires : JsFetch INatResp)
    (tres : JsFetch (List ToxicRaw)) :
    ((multiSourceSearch query opts cfg pres ires tres).2.perenual
      = if opts.includePerenual && cfg.perenual then 1 else 0)
    ∧ ((multiSourceSearch query opts cfg pres ires tres).2.inaturalist
      = if opts.includeINaturalist && cfg.inaturalist then 1 else 0)
    ∧ ((multiSourceSearch query opts cfg pres ires tres).2.toxicshrooms
      = if opts.includeFungi && cfg.toxicshrooms then 1 else 0)
    ∧ (cfg.perenual = false →
        (multiSourceSearch query opts cfg pres ires tres).1.perenual = [])
    ∧ (cfg.inaturalist = false →
        (multiSourceSearch query opts cfg pres ires tres).1.inaturalist = [])
    ∧ (cfg.toxicshrooms = false →
        (multiSourceSearch query opts cfg pres ires tres).1.toxicshrooms = [])
    ∧ (∀ (page : Int) (taxonId : Option Int) (perPage : Int) (res : JsFetch INatResp),
        cfg.inaturalist = false →
        (searchINaturalist cfg query page taxonId perPage res).2 = 0) := by
  rcases opts with ⟨ip, ii, ifu⟩
  rcases cfg with ⟨cp, ci, ct⟩
  refine ⟨?_, ?_, ?_, ?_, ?_, ?_, ?_⟩
  · cases ip <;> cases cp <;> cases pres <;>
      first
      | rfl
      | simp [multiSourceSearch, getPlantList_httpErr]
  · cases ii <;> cases ci <;> cases ires <;> rfl
  · cases ifu <;> cases ct <;> cases tres <;> rfl
  · intro h
    subst h
    cases ip <;> rfl
  · intro h
    subst h
    cases ii <;> rfl
  · intro h
    subst h
    cases ifu <;> cases tres <;> rfl
  · intro page taxonId perPage res h
    subst h
    rfl

/-- Witness for the amended claim C9: with every source disabled, no
branch issues a call and every contribution is empty. -/
theorem claim_C9_amended_witness :
    (multiSourceSearch "rose" defaultMSOpts ⟨false, false, false⟩ .netErr .netErr .netErr).2.perenual
      = 0
    ∧ (multiSourceSearch "rose" defaultMSOpts ⟨false, false, false⟩ .netErr .netErr .netErr).1.perenual
        = []
    ∧ (multiSourceSearch "rose" defaultMSOpts ⟨false, false, false⟩ .netErr .netErr .netErr).1.inaturalist
        = []
    ∧ (multiSourceSearch "rose" defaultMSOpts ⟨false, false, false⟩ .netErr .netErr .netErr).1.toxicshrooms
        = []
    ∧ (searchINaturalist ⟨false, false, false⟩ "rose" 1 none 30 .netErr).2 = 0 := by
  have h := claim_C9_amended "rose" defaultMSOpts ⟨false, false, false⟩ .netErr .netErr .netErr
  exact ⟨h.1.trans rfl, h.2.2.2.1 rfl, h.2.2.2.2.1 rfl, h.2.2.2.2.2.1 rfl,
    h.2.2.2.2.2.2 1 none 30 .netErr rfl⟩
